import Mathlib

/-!
Shallow embedding of the score-hv innovation-statistics harvester.

The embedding covers the two harvester generations found in the
repository:

* generation 1 (`src/score_hv/innov_netcdf.py`, string-cycle file
  naming, `Region` without a boundary string, `InnovStatsHarvester`),
* generation 2 (`src/score_hv/harvesters/innov_netcdf.py`,
  datetime-cycle file naming, `Region` with a `grid` field,
  `InnovStatsHv`, optional dataframe output),

plus the path checker (`src/rnr_score_hv/file_utils.py`) and the
top-level `harvest` dispatch (`src/rnr_score_hv/harvester_base.py`).

Conventions of the embedding:

* Python floats are modelled as rationals; only comparisons are used.
* `datetime` values are modelled as integers counting hours since
  1988-01-01 00:00 UTC (the module constant `MIN_CYCLE_DATETIME`);
  `timedelta(hours=6)` is `+ 6`.  The module constant
  `MAX_CYCLE_DATETIME = datetime.utcnow()` is a parameter `now`.
* external capabilities (the file system, `datetime.strftime`,
  `datetime.strptime`, the netCDF reader) are explicit function
  parameters;
* Python exceptions are `Except String` results; the distinct error
  strings keep track of which source-level raise fired, and wrapping
  clauses prepend their contextual message.
-/

deriving instance DecidableEq for Except

namespace ScoreHv

/-- Dynamically typed Python value, as far as the harvester inspects
one: a `str`, a `float`, an `int`, a `datetime`, or `None`.  Used where
the source performs `isinstance` checks on configuration values. -/
inductive PyVal where
  | str (s : String)
  | float (x : ℚ)
  | int (n : ℤ)
  | dt (t : ℤ)
  | noneV
deriving DecidableEq

/-- Python `isinstance(v, str)`. -/
def PyVal.isStr : PyVal → Bool
  | PyVal.str _ => true
  | _ => false

/-- Python `isinstance(v, float)` (note: Python ints are not floats). -/
def PyVal.isFloat : PyVal → Bool
  | PyVal.float _ => true
  | _ => false

/-- The payload of a string value (unused on non-strings). -/
def PyVal.asStr : PyVal → String
  | PyVal.str s => s
  | _ => ""

/-- The payload of a float value (unused on non-floats). -/
def PyVal.asFloat : PyVal → ℚ
  | PyVal.float x => x
  | _ => 0

/-! ## Path/Validity Checker (`src/rnr_score_hv/file_utils.py`) -/

/-- Observable state of one path in the file system: whether it is an
existing regular file, its size in bytes, and whether the process can
read it.  The checker is the only consumer. -/
structure FileStat where
  isFile : Bool
  size : Nat
  readable : Bool
deriving DecidableEq

/-- The file system as seen by the checker: a pure map from paths to
their stat. -/
abbrev FileSys : Type := String → FileStat

/-- Character class of the allow-set regex `[^A-Za-z0-9\._\-\/]` used by
`is_valid_readable_file`: a character is allowed iff it is an ASCII
letter, an ASCII digit, or one of `.`, `_`, `-`, `/`. -/
def allowedChar (c : Char) : Bool :=
  c.isAlpha || c.isDigit || c = '.' || c = '_' || c = '-' || c = '/'

/-- `file_utils.is_valid_readable_file`: raises (returns an error) when
the path has a character outside the allow-set, when it is not an
existing regular file, when the file is empty, or when it is not
readable; otherwise returns `()` and touches no state (it is pure). -/
def is_valid_readable_file (fs : FileSys) (filepath : String) :
    Except String Unit :=
  if !(filepath.toList.all allowedChar) then
    Except.error "Invalid characters found in file path"
  else if !(fs filepath).isFile then
    Except.error "Path does not exist"
  else if (fs filepath).size = 0 then
    Except.error "Invalid file. File is empty."
  else if !(fs filepath).readable then
    Except.error "Insufficient permissions on file"
  else
    Except.ok ()

/-! ## Region model (generation 2,
`src/score_hv/harvesters/innov_netcdf.py`) -/

/-- Longitude constants used by the boundary ring. -/
def MIN_LONG : ℤ := -180

/-- Longitude constants used by the boundary ring. -/
def MAX_LONG : ℤ := 180

/-- The generation-2 `Region` dataclass: name, latitude bounds, and the
`grid` field whose dataclass default is the empty string
(`field(default_factory=str, init=False)`). -/
structure Region where
  name : String
  min_lat : ℚ
  max_lat : ℚ
  grid : String
deriving DecidableEq

/-- `Region.__post_init__` of generation 2.  Checks, in source order:
`name` is a `str`; both bounds are `float`s; `min_lat > max_lat` fails
(twice — the second comparison is the unreachable duplicate
`max_lat < min_lat`); either bound with absolute value above 90 fails.
The source then computes the five-vertex closed-ring boundary string
into the *local* variable `grid` and never assigns `self.grid`, so the
constructed instance keeps the dataclass default `""` in its `grid`
field. -/
def mkRegion (name min_lat max_lat : PyVal) : Except String Region :=
  if !name.isStr then
    Except.error "name must be a string"
  else if !min_lat.isFloat || !max_lat.isFloat then
    Except.error "min and max lat must be floats"
  else
    let a := min_lat.asFloat
    let b := max_lat.asFloat
    if a > b then
      Except.error "min_lat must be less than max_lat"
    else if b < a then
      Except.error "min_lat must be greater than min_lat"
    else if 90 < |a| ∨ 90 < |b| then
      Except.error "min_lat or max_lat is out of allowed range"
    else
      Except.ok { name := name.asStr, min_lat := a, max_lat := b, grid := "" }

/-- Module-level `DEFAULT_REGIONS` of generation 2: the five regions
built by `Region(...)` calls at import time (each carrying the empty
`grid`, per `mkRegion`). -/
def DEFAULT_REGIONS : List Region :=
  [ { name := "equatorial", min_lat := -5, max_lat := 5, grid := "" },
    { name := "global", min_lat := -90, max_lat := 90, grid := "" },
    { name := "north_hemis", min_lat := 20, max_lat := 60, grid := "" },
    { name := "tropics", min_lat := -20, max_lat := 20, grid := "" },
    { name := "south_hemis", min_lat := -60, max_lat := -20, grid := "" } ]

/-! ## Metric locator -/

/-- 1988-01-01 00:00, the origin of the hour count and the lower bound
of the allowed cycle-time window (`MIN_CYCLE_DATETIME`). -/
def MIN_CYCLE_DATETIME : ℤ := 0

/-- Semantics of Python `str.replace` restricted to a non-empty
pattern: replace all non-overlapping occurrences left to right.  The
fuel argument (instantiated with the input length) only serves
termination; one character is consumed per step. -/
def replaceFuel (pat rep : List Char) : Nat → List Char → List Char
  | 0, s => s
  | _ + 1, [] => []
  | fuel + 1, c :: rest =>
      if pat.isPrefixOf (c :: rest) then
        rep ++ replaceFuel pat rep fuel ((c :: rest).drop pat.length)
      else
        c :: replaceFuel pat rep fuel rest

/-- Python `s.replace(pat, rep)` (the harvester only ever uses the
non-empty pattern `"metric"`; an empty pattern is returned unchanged). -/
def pyReplace (s pat rep : String) : String :=
  if pat.isEmpty then s
  else String.mk (replaceFuel pat.toList rep.toList s.length s.toList)

/-- Generation-1 resolved metric location
(`MetricMeta` of `src/score_hv/innov_netcdf.py`). -/
structure MetricMeta1 where
  name : String
  filename : String
  cycletime : ℤ
deriving DecidableEq

/-- Generation-1 `file_meta` block: a directory path, a cycle string, a
strptime pattern for it, and a strftime filename template.  Each
`dict.get` may come back `None`. -/
structure FileMeta1 where
  filepath : Option String
  cycle : Option String
  cycletime_str : Option String
  filename_str : Option String

/-- Generation-1 `MetricMeta.__post_init__`
(`src/score_hv/innov_netcdf.py`): parse the cycle string with
`datetime.strptime` (failing on a missing key or an unparsable value),
substitute the literal token `metric` in the filename template with the
metric name, render the parsed time through the template with
`datetime.strftime`, prepend the directory and a slash, and run the
result through the path checker.  Any failure is wrapped into the
"Netcdf file could not be found or is empty" ValueError.  Note: this
generation performs no cycle-time window check.

`strptime cycle fmt` and `strftime t fmt` stand for the external
`datetime` capabilities; `strptime` returns `none` when parsing fails
(which the embedding also uses for `None` arguments, where the real
call raises `TypeError` — both are wrapped into the same ValueError). -/
def mkMetricMeta1 (strptime : String → String → Option ℤ)
    (strftime : ℤ → String → String) (fs : FileSys)
    (name : String) (fm : FileMeta1) : Except String MetricMeta1 :=
  match fm.filepath, fm.cycle, fm.cycletime_str, fm.filename_str with
  | some file_path, some cycle, some cycletime_str, some filename_str =>
      match strptime cycle cycletime_str with
      | none =>
          Except.error "Netcdf file could not be found or is empty - strptime"
      | some cycletime =>
          let new_fn := pyReplace filename_str "metric" name
          let filename := file_path ++ "/" ++ strftime cycletime new_fn
          match is_valid_readable_file fs filename with
          | Except.error e =>
              Except.error ("Netcdf file could not be found or is empty - " ++ e)
          | Except.ok _ =>
              Except.ok { name := name, filename := filename,
                          cycletime := cycletime }
  | _, _, _, _ =>
      Except.error "Netcdf file could not be found or is empty - missing file_meta key"

/-- Generation-2 resolved metric location
(`MetricMeta` of `src/score_hv/harvesters/innov_netcdf.py`). -/
structure MetricMeta where
  name : String
  filepath : String
  filename : String
  cycletime : ℤ
deriving DecidableEq

/-- Generation-2 `file_meta` block: strftime templates for the
directory and the filename, and a `cycletime` entry that is supposed to
be a `datetime` object (but, coming from `dict.get`, can be anything,
including `None` for a missing key). -/
structure FileMeta where
  filepath_format_str : Option String
  filename_format_str : Option String
  cycletime : PyVal

/-- Generation-2 `MetricMeta.__post_init__`
(`src/score_hv/harvesters/innov_netcdf.py`): check that `cycletime` is
a `datetime`; check it lies inside `[MIN_CYCLE_DATETIME, now]` (the
module constant `MAX_CYCLE_DATETIME = datetime.utcnow()` is the `now`
parameter); render the directory from `cycletime` and the filename from
`cycletime + 6 hours`; concatenate, substitute the token `metric`, and
run the path checker.  Every failure is wrapped into the
"Netcdf file could not be found or is empty" ValueError (in the source
the two explicit raises evaluate an undefined `err` in their `from err`
clause, so they actually surface as a `NameError` — still caught and
wrapped; the embedding keeps the distinct messages). -/
def mkMetricMeta (strftime : ℤ → String → String) (fs : FileSys)
    (now : ℤ) (name : String) (fm : FileMeta) : Except String MetricMeta :=
  match fm.cycletime with
  | PyVal.dt cycletime =>
      if cycletime > now ∨ cycletime < MIN_CYCLE_DATETIME then
        Except.error "cycle time is out of range"
      else
        match fm.filepath_format_str, fm.filename_format_str with
        | some fpf, some fnf =>
            let filepath := strftime cycletime fpf
            let filename :=
              pyReplace (filepath ++ strftime (cycletime + 6) fnf) "metric" name
            match is_valid_readable_file fs filename with
            | Except.error e =>
                Except.error ("Netcdf file could not be found or is empty - " ++ e)
            | Except.ok _ =>
                Except.ok { name := name, filepath := filepath,
                            filename := filename, cycletime := cycletime }
        | _, _ =>
            Except.error "Netcdf file could not be found or is empty - format missing"
  | _ => Except.error "cycle time must be a datetime object"

/-! ## Extraction engine (generation 2, `InnovStatsHv.get_data`) -/

/-- Output-format registry constants (`src/score_hv/hv_registry.py`). -/
def NAMED_TUPLES_LIST : String := "tuples_list"

/-- Output-format registry constants (`src/score_hv/hv_registry.py`). -/
def PANDAS_DATAFRAME : String := "pandas_dataframe"

/-- Module constant `HRVSTR_NAME` of generation 2. -/
def HRVSTR_NAME : String := "innov_stats_"

/-- The contents of one opened netCDF file, as far as the harvester
reads it: named one-dimensional numeric arrays
(`ncfile.variables[name][...]`). -/
abbrev NcVars : Type := List (String × List ℚ)

/-- `ncfile.variables[name]`: look a named array up, `none` meaning the
KeyError of a missing variable. -/
def lookupVar (vars : NcVars) (name : String) : Option (List ℚ) :=
  (List.find? (fun p => p.1 == name) vars).map Prod.snd

/-- The generation-2 `HarvestedData` named tuple. -/
structure HarvestedData where
  name : String
  cycletime : ℤ
  region_name : String
  region_bounds : String
  elevation : ℚ
  elevation_units : Option String
  metric : String
  stat : String
  value : ℚ
deriving DecidableEq

/-- The record built inside the innermost loop of
`InnovStatsHv.get_data` for level index carrying elevation `e` and
statistic value `v`: the synthesized name
`'innov_stats_' + metric.name + '_' + stat`, the observation time
`metric.cycletime + 6 hours`, the region's name and `grid` boundary,
the elevation value and unit label, the metric name, the statistic
name, and the numeric value. -/
def mkItem (m : MetricMeta) (ev_units : Option String) (region : Region)
    (stat : String) (e v : ℚ) : HarvestedData :=
  { name := HRVSTR_NAME ++ m.name ++ "_" ++ stat,
    cycletime := m.cycletime + 6,
    region_name := region.name,
    region_bounds := region.grid,
    elevation := e,
    elevation_units := ev_units,
    metric := m.name,
    stat := stat,
    value := v }

/-- The innermost loop `for idx in range(len(nc_vardata))` of
`get_data`: one record per index of the statistic's array, reading
`elevations[idx]` (whose IndexError, raised when the statistic array is
longer than the elevation array, aborts the whole harvest). -/
def buildItems (m : MetricMeta) (ev_units : Option String)
    (elevations : List ℚ) (region : Region) (stat : String) :
    List ℚ → Nat → Except String (List HarvestedData)
  | [], _ => Except.ok []
  | v :: rest, idx =>
      match elevations.get? idx with
      | none => Except.error "IndexError"
      | some e =>
          match buildItems m ev_units elevations region stat rest (idx + 1) with
          | Except.error msg => Except.error msg
          | Except.ok tail => Except.ok (mkItem m ev_units region stat e v :: tail)

/-- The `for stat in stats` loop of `get_data` for a fixed region:
derive the variable name `stat ++ "_" ++ region.name`, read that array
(KeyError when absent), and emit its records. -/
def harvestStats (vars : NcVars) (m : MetricMeta) (ev_units : Option String)
    (elevations : List ℚ) (region : Region) :
    List String → Except String (List HarvestedData)
  | [] => Except.ok []
  | stat :: rest =>
      match lookupVar vars (stat ++ "_" ++ region.name) with
      | none => Except.error ("KeyError: " ++ stat ++ "_" ++ region.name)
      | some nc_vardata =>
          match buildItems m ev_units elevations region stat nc_vardata 0 with
          | Except.error e => Except.error e
          | Except.ok items =>
              match harvestStats vars m ev_units elevations region rest with
              | Except.error e => Except.error e
              | Except.ok more => Except.ok (items ++ more)

/-- The `for region in regions` loop of `get_data`. -/
def harvestRegions (vars : NcVars) (m : MetricMeta) (ev_units : Option String)
    (elevations : List ℚ) (stats : List String) :
    List Region → Except String (List HarvestedData)
  | [] => Except.ok []
  | region :: rest =>
      match harvestStats vars m ev_units elevations region stats with
      | Except.error e => Except.error e
      | Except.ok items =>
          match harvestRegions vars m ev_units elevations stats rest with
          | Except.error e => Except.error e
          | Except.ok more => Except.ok (items ++ more)

/-- The body of the per-metric `try` block of `get_data`: read the
elevation array `ncfile.variables[ev_units][...]` (a `None` elevation
unit, or one naming no variable of the file, is the KeyError) and run
the region/statistic loops. -/
def harvestMetric (vars : NcVars) (ev_units : Option String)
    (regions : List Region) (stats : List String) (m : MetricMeta) :
    Except String (List HarvestedData) :=
  match ev_units with
  | none => Except.error "KeyError: None"
  | some ev =>
      match lookupVar vars ev with
      | none => Except.error ("KeyError: " ++ ev)
      | some elevations => harvestRegions vars m ev_units elevations stats regions

/-- The `for metric in metrics` loop of `get_data`, with the resource
effect made explicit: the second component of the result lists the
files that were opened by `netCDF4.Dataset` and never closed when the
call finished.  `ncfs` is the netCDF reader: `none` means the open
itself raised (outside the `try` block, so nothing was opened and the
error is not wrapped).  When the `try` body raises, the `except` clause
re-raises the wrapped ValueError, so the `ncfile.close()` that follows
the `try/except` statement is *not* executed and the current file stays
open; `ncfile.close()` only runs on the no-error path. -/
def getDataLoop (ncfs : String → Option NcVars) (ev_units : Option String)
    (regions : List Region) (stats : List String) :
    List MetricMeta → Except String (List HarvestedData) × List String
  | [] => (Except.ok [], [])
  | m :: rest =>
      match ncfs m.filename with
      | none => (Except.error ("could not open " ++ m.filename), [])
      | some vars =>
          match harvestMetric vars ev_units regions stats m with
          | Except.error e =>
              (Except.error
                ("problem parsing netcdf file " ++ m.filename ++ " - err: " ++ e),
               [m.filename])
          | Except.ok items =>
              match getDataLoop ncfs ev_units regions stats rest with
              | (Except.error e, opened) => (Except.error e, opened)
              | (Except.ok more, opened) => (Except.ok (items ++ more), opened)

/-- The validated configuration as `InnovStatsHv.get_data` consumes it
through the `InnovStatsCfg` accessors. -/
structure HvConfig where
  metrics_meta : List MetricMeta
  regions : List Region
  stats : List String
  elevation_unit : Option String
  output_format : String
deriving DecidableEq

/-- Harvest output: the flat named-tuple list, or the pandas dataframe
built from the same records by `get_data_pandas_df`. -/
inductive HarvestOutput where
  | tuples (items : List HarvestedData)
  | dataframe (items : List HarvestedData)
deriving DecidableEq

/-- `InnovStatsHv.get_data`: run the metric loop, then reshape into a
dataframe exactly when the configured output format is
`PANDAS_DATAFRAME`.  The second component again lists the files left
open. -/
def get_data (ncfs : String → Option NcVars) (cfg : HvConfig) :
    Except String HarvestOutput × List String :=
  match getDataLoop ncfs cfg.elevation_unit cfg.regions cfg.stats cfg.metrics_meta with
  | (Except.error e, opened) => (Except.error e, opened)
  | (Except.ok items, opened) =>
      if cfg.output_format = PANDAS_DATAFRAME then
        (Except.ok (HarvestOutput.dataframe items), opened)
      else
        (Except.ok (HarvestOutput.tuples items), opened)

/-! ## Harvest configuration (generation 2, `HarvestConfig`) -/

/-- Module constant `VALID_STATS` (identical in both generations). -/
def VALID_STATS : List String := ["bias", "count", "rmsd"]

/-- The raw configuration mapping, holding the keys the generation-2
`HarvestConfig` setters read (`dict.get` of a missing key is `none`).
A region entry is a name and its `lat_min`/`lat_max` sub-keys (each
itself possibly missing). -/
structure RegionSpec where
  lat_min : Option ℚ
  lat_max : Option ℚ

/-- The raw configuration mapping for generation 2. -/
structure ConfigData where
  metrics : Option (List String)
  stats : Option (List String)
  regions : Option (List (String × RegionSpec))
  file_meta : Option FileMeta
  elevation_unit : Option String
  output_format : Option String

/-- `HarvestConfig.set_stats`: a missing `stats` key means the `for`
loop iterates `None` (a TypeError, wrapped into the KeyError of the
`except` clause); any entry outside `VALID_STATS` raises, wrapped the
same way; otherwise the list is stored unchanged. -/
def set_stats (stats : Option (List String)) : Except String (List String) :=
  match stats with
  | none => Except.error "stats key missing"
  | some l =>
      if l.all (fun s => VALID_STATS.contains s) then Except.ok l
      else Except.error "Invalid stat, must be one of VALID_STATS"

/-- The `for name, region in regions.items()` loop of
`HarvestConfig.set_regions`: `float(region.get('lat_min'))` raises on a
missing sub-key; each `Region(...)` failure is wrapped into the
"Problem parsing regions" ValueError. -/
def set_regions_list : List (String × RegionSpec) → Except String (List Region)
  | [] => Except.ok []
  | (name, spec) :: rest =>
      match spec.lat_min, spec.lat_max with
      | some lat_min, some lat_max =>
          match mkRegion (PyVal.str name) (PyVal.float lat_min)
              (PyVal.float lat_max) with
          | Except.error e => Except.error ("Problem parsing regions - err: " ++ e)
          | Except.ok r =>
              match set_regions_list rest with
              | Except.error e => Except.error e
              | Except.ok more => Except.ok (r :: more)
      | _, _ => Except.error "Problem parsing regions - err: float() of None"

/-- `HarvestConfig.set_regions`: an absent `regions` key substitutes
the module-level `DEFAULT_REGIONS`; otherwise one `Region` is built per
entry, in mapping order. -/
def set_regions (regions : Option (List (String × RegionSpec))) :
    Except String (List Region) :=
  match regions with
  | none => Except.ok DEFAULT_REGIONS
  | some rs => set_regions_list rs

/-- The `for metric in self.metrics` loop of
`HarvestConfig.set_metrics_meta`: one `MetricMeta` per metric name,
with the same `file_meta` block propagated to each; a `None`
`file_meta` makes the `MetricMeta` construction raise, and every
failure is wrapped into the "Problem creating metrics_meta dataclass"
ValueError. -/
def metrics_meta_list (strftime : ℤ → String → String) (fs : FileSys)
    (now : ℤ) (file_meta : Option FileMeta) :
    List String → Except String (List MetricMeta)
  | [] => Except.ok []
  | metric :: rest =>
      match file_meta with
      | none => Except.error "Problem creating metrics_meta dataclass - err None"
      | some fm =>
          match mkMetricMeta strftime fs now metric fm with
          | Except.error e =>
              Except.error ("Problem creating metrics_meta dataclass - err " ++ e)
          | Except.ok mm =>
              match metrics_meta_list strftime fs now file_meta rest with
              | Except.error e => Except.error e
              | Except.ok more => Except.ok (mm :: more)

/-- `HarvestConfig.set_metrics_meta`: a missing `metrics` key makes the
(uncaught) `for metric in None` raise a TypeError; otherwise the
per-metric loop runs. -/
def set_metrics_meta (strftime : ℤ → String → String) (fs : FileSys)
    (now : ℤ) (metrics : Option (List String)) (file_meta : Option FileMeta) :
    Except String (List MetricMeta) :=
  match metrics with
  | none => Except.error "TypeError: NoneType object is not iterable"
  | some ms => metrics_meta_list strftime fs now file_meta ms

/-- `HarvestConfig.__post_init__` (generation 2): run, in order,
`set_stats`, `set_regions`, `set_metrics_meta`, `set_elevation_unit`
(which stores `config_data.get('elevation_unit')` with no default and
no validation), and `set_output_format` (which defaults to
`NAMED_TUPLES_LIST`).  The first failing phase aborts construction. -/
def mkHarvestConfig (strftime : ℤ → String → String) (fs : FileSys)
    (now : ℤ) (cfg : ConfigData) : Except String HvConfig :=
  match set_stats cfg.stats with
  | Except.error e => Except.error e
  | Except.ok stats =>
      match set_regions cfg.regions with
      | Except.error e => Except.error e
      | Except.ok regions =>
          match set_metrics_meta strftime fs now cfg.metrics cfg.file_meta with
          | Except.error e => Except.error e
          | Except.ok mm =>
              Except.ok { metrics_meta := mm, regions := regions,
                          stats := stats,
                          elevation_unit := cfg.elevation_unit,
                          output_format :=
                            cfg.output_format.getD NAMED_TUPLES_LIST }

/-! ## Top-level dispatch (`src/rnr_score_hv/harvester_base.py`) -/

/-- The kinds of exception the `harvest` entry point can surface; the
embedding distinguishes the `AttributeError` of an attribute access on
`None` from the `KeyError` the dead `except` clause would wrap. -/
inductive HarvestErr where
  | attributeError (msg : String)
  | keyError (msg : String)
  | other (msg : String)
deriving DecidableEq

/-- The raw configuration as the dispatch reads it: only the
`harvester_name` key is consulted before a handler takes over the whole
mapping. -/
structure RnrRawConfig where
  harvester_name : Option String

/-- A registry entry (the `Harvester` named tuple of
`src/rnr_score_hv/harvesters.py`, whose third field is there called
the data parsing constructor): display name, config constructor, and
extractor; the two constructors carry all file I/O and any downstream
failure of the harvest. -/
structure RnrHarvester (Cfg Data : Type) where
  name : String
  config_handler : RnrRawConfig → Except HarvestErr Cfg
  data_extractor : Cfg → Except HarvestErr Data

/-- `harvester_registry.get(harvester_name)`: Python `dict.get` of a
missing key (or of the `None` key when `harvester_name` itself was
absent) returns `None` and raises nothing. -/
def registry_get {Cfg Data : Type}
    (registry : List (String × RnrHarvester Cfg Data))
    (key : Option String) : Option (RnrHarvester Cfg Data) :=
  match key with
  | none => none
  | some k => (List.find? (fun p => p.1 == k) registry).map Prod.snd

/-- `harvester_base.harvest` on an in-memory mapping: look the
harvester up with `dict.get`; since `dict.get` never raises, the
surrounding `try/except` (whose handler would wrap a KeyError saying
"could not find harvester from config") is unreachable, and a failed
lookup instead surfaces as the `AttributeError` raised by the
subsequent `harvester.name` attribute access on `None`.  On a
successful lookup the registered config constructor and extractor run
in sequence. -/
def harvest {Cfg Data : Type}
    (registry : List (String × RnrHarvester Cfg Data))
    (harvest_dict : RnrRawConfig) : Except HarvestErr Data :=
  match registry_get registry harvest_dict.harvester_name with
  | none =>
      Except.error
        (HarvestErr.attributeError "NoneType object has no attribute name")
  | some harvester =>
      match harvester.config_handler harvest_dict with
      | Except.error e => Except.error e
      | Except.ok config => harvester.data_extractor config

/-! ## Concrete fixtures

Closed inputs used by witnesses and counterexamples: a file system on
which every path is a readable non-empty regular file, an identity
`strftime` (formats without directives render as themselves), and small
configurations and netCDF contents. -/

/-- A file system where every path is a readable, non-empty regular
file. -/
def fsAll : FileSys := fun _ => { isFile := true, size := 1, readable := true }

/-- A `strftime` whose format strings contain no directives, so they
render as themselves. -/
def strftimeId : ℤ → String → String := fun _ fmt => fmt

/-- A `strptime` oracle knowing one fact: the cycle string
`1970010100` under the pattern `%Y%m%d%H` parses to 1970-01-01 00 UTC,
which is 157776 hours before 1988-01-01 00 UTC. -/
def strptime1970 : String → String → Option ℤ := fun cycle fmt =>
  if cycle = "1970010100" && fmt = "%Y%m%d%H" then some (-157776) else none

/-- A generation-1 `file_meta` whose cycle string predates the
1988-01-01 window bound. -/
def fm1970 : FileMeta1 :=
  { filepath := some "/data", cycle := some "1970010100",
    cycletime_str := some "%Y%m%d%H",
    filename_str := some "innov_stats.metric.nc" }

/-- A generation-2 `file_meta` whose cycletime (hour 200) lies after
the `now` used in the corresponding witness (hour 100). -/
def fmLate : FileMeta :=
  { filepath_format_str := some "/data/",
    filename_format_str := some "innov_stats.metric.nc",
    cycletime := PyVal.dt 200 }

/-- A generation-2 `file_meta` with cycletime at the window's lower
bound. -/
def fmW10 : FileMeta :=
  { filepath_format_str := some "/data/",
    filename_format_str := some "innov.metric.nc",
    cycletime := PyVal.dt 0 }

/-- A resolved metric location for the temperature file. -/
def mOk : MetricMeta :=
  { name := "temperature", filepath := "/data/",
    filename := "/data/innov.temperature.nc", cycletime := 0 }

/-- The `global` region (with the empty `grid` the constructor
leaves). -/
def regionGl : Region := { name := "global", min_lat := -90, max_lat := 90, grid := "" }

/-- The `equatorial` region. -/
def regionEq : Region := { name := "equatorial", min_lat := -5, max_lat := 5, grid := "" }

/-- Contents of a well-formed temperature file: a 3-entry elevation
array and a matching `bias_global` array. -/
def varsOk : NcVars := [("plevs", [1000, 500, 100]), ("bias_global", [1, 2, 3])]

/-- A netCDF reader resolving exactly the temperature file to
`varsOk`. -/
def ncfsOk : String → Option NcVars := fun s =>
  if s = "/data/innov.temperature.nc" then some varsOk else none

/-- A single-metric, single-region, single-statistic configuration over
the temperature file. -/
def cfgOk : HvConfig :=
  { metrics_meta := [mOk], regions := [regionGl], stats := ["bias"],
    elevation_unit := some "plevs", output_format := NAMED_TUPLES_LIST }

/-- A netCDF reader for the equatorial-region run: one level, one bias
value. -/
def ncfsEq : String → Option NcVars := fun s =>
  if s = "/data/innov.temperature.nc" then
    some [("plevs", [1000]), ("bias_equatorial", [2])]
  else none

/-- A configuration over the equatorial region. -/
def cfgEq : HvConfig :=
  { metrics_meta := [mOk], regions := [regionEq], stats := ["bias"],
    elevation_unit := some "plevs", output_format := NAMED_TUPLES_LIST }

/-- A resolved metric location for a uvwind file whose contents will
lack the requested statistic variable. -/
def mC2 : MetricMeta :=
  { name := "uvwind", filepath := "/data/",
    filename := "/data/innov.uvwind.nc", cycletime := 0 }

/-- Contents of the uvwind file: the elevation array is present but
`bias_global` is missing, so reading it raises inside the region/stat
loop. -/
def ncfsC2 : String → Option NcVars := fun s =>
  if s = "/data/innov.uvwind.nc" then some [("plevs", [100])] else none

/-- Configuration whose only metric reads the deficient uvwind file. -/
def cfgC2 : HvConfig :=
  { metrics_meta := [mC2], regions := [regionGl], stats := ["bias"],
    elevation_unit := some "plevs", output_format := NAMED_TUPLES_LIST }

/-- A raw configuration with no `regions` key (and an empty metric
list, so constructing it needs no files). -/
def cfgW8 : ConfigData :=
  { metrics := some [], stats := some ["bias"], regions := none,
    file_meta := none, elevation_unit := some "plevs", output_format := none }

/-- The validated configuration `cfgW8` constructs. -/
def hcW8 : HvConfig :=
  { metrics_meta := [], regions := DEFAULT_REGIONS, stats := ["bias"],
    elevation_unit := some "plevs", output_format := NAMED_TUPLES_LIST }

/-- A raw configuration lacking the `elevation_unit` key but otherwise
complete, over one temperature metric. -/
def cfgW10 : ConfigData :=
  { metrics := some ["temperature"], stats := some ["bias"], regions := none,
    file_meta := some fmW10, elevation_unit := none, output_format := none }

/-- The validated configuration `cfgW10` constructs (over `fsAll` and
`strftimeId` at `now = 0`). -/
def hcW10 : HvConfig :=
  { metrics_meta :=
      [ { name := "temperature", filepath := "/data/",
          filename := "/data/innov.temperature.nc", cycletime := 0 } ],
    regions := DEFAULT_REGIONS, stats := ["bias"],
    elevation_unit := none, output_format := NAMED_TUPLES_LIST }

/-- A raw configuration whose stats list holds an entry outside the
allow-list. -/
def cfgBadStats : ConfigData :=
  { metrics := some [], stats := some ["bias", "wrong"], regions := none,
    file_meta := none, elevation_unit := none, output_format := none }

/-- A raw configuration whose stats list is wholly inside the
allow-list. -/
def cfgGoodStats : ConfigData :=
  { metrics := some [], stats := some ["bias", "count"], regions := none,
    file_meta := none, elevation_unit := none, output_format := none }

/-! ## Theorems -/

/-- Sanity check: `DEFAULT_REGIONS` is exactly what the import-time
`Region(...)` constructor calls produce. -/
theorem default_regions_built_by_mkRegion :
    [ mkRegion (PyVal.str "equatorial") (PyVal.float (-5)) (PyVal.float 5),
      mkRegion (PyVal.str "global") (PyVal.float (-90)) (PyVal.float 90),
      mkRegion (PyVal.str "north_hemis") (PyVal.float 20) (PyVal.float 60),
      mkRegion (PyVal.str "tropics") (PyVal.float (-20)) (PyVal.float 20),
      mkRegion (PyVal.str "south_hemis") (PyVal.float (-60)) (PyVal.float (-20)) ]
    = DEFAULT_REGIONS.map Except.ok := by
  decide

/-- C9: the path checker succeeds exactly when the path has only
characters from the allow-set (ASCII letters, digits, dot, underscore,
slash, hyphen), references an existing
regular file, the file is non-empty, and the process can read it; in
every other case it fails.  (It is a pure function of the path and the
file-system view, so it modifies no state.) -/
theorem c9_is_valid_readable_file_iff (fs : FileSys) (path : String) :
    is_valid_readable_file fs path = Except.ok () ↔
      (path.toList.all allowedChar = true ∧ (fs path).isFile = true ∧
        (fs path).size ≠ 0 ∧ (fs path).readable = true) := by
  unfold is_valid_readable_file
  split_ifs with h1 h2 h3 h4 <;> simp_all

/-- C9 witness: an allow-set path on the everything-readable file
system passes the checker. -/
theorem c9_witness :
    is_valid_readable_file fsAll "/data/innov.temperature.nc" = Except.ok () :=
  (c9_is_valid_readable_file_iff fsAll "/data/innov.temperature.nc").mpr
    (by decide)

/-- C5 counterexample: the claim says construction fails when the name
is not a *non-empty* string, but `Region.__post_init__` only checks
`isinstance(name, str)`: the empty name passes every check and the
construction succeeds. -/
theorem c5_counterexample_empty_name :
    mkRegion (PyVal.str "") (PyVal.float (-5)) (PyVal.float 5)
      = Except.ok { name := "", min_lat := -5, max_lat := 5, grid := "" } := by
  decide

/-- C5 amended: Region construction succeeds exactly when the name is
a string (empty allowed), both bounds are floats (Python ints are
rejected, as the repository's own test asserts), `min_lat ≤ max_lat`,
and both bounds lie within `[-90, 90]`; the constructed value carries
those fields (and the empty `grid` the constructor leaves). -/
theorem c5_mkRegion_ok_iff (name min_lat max_lat : PyVal) (r : Region) :
    mkRegion name min_lat max_lat = Except.ok r ↔
      ∃ s x y, name = PyVal.str s ∧ min_lat = PyVal.float x ∧
        max_lat = PyVal.float y ∧ x ≤ y ∧ |x| ≤ 90 ∧ |y| ≤ 90 ∧
        r = { name := s, min_lat := x, max_lat := y, grid := "" } := by
  constructor
  · intro h
    rcases name with s | x0 | n0 | t0 | _ <;>
      rcases min_lat with s1 | x | n1 | t1 | _ <;>
      rcases max_lat with s2 | y | n2 | t2 | _ <;>
      simp only [mkRegion, PyVal.isStr, PyVal.isFloat, PyVal.asStr, PyVal.asFloat,
        Bool.not_true, Bool.not_false, Bool.false_or, Bool.or_false, Bool.true_or,
        Bool.or_true, Bool.or_self, if_true, if_false, reduceCtorEq, reduceIte] at h
    split_ifs at h with h1 h2
    have h90 := h2
    push_neg at h90
    injection h with h4
    exact ⟨s, x, y, rfl, rfl, rfl, le_of_not_lt h1, h90.1, h90.2, h4.symm⟩
  · rintro ⟨s, x, y, rfl, rfl, rfl, hxy, hx, hy, rfl⟩
    simp only [mkRegion, PyVal.isStr, PyVal.isFloat, PyVal.asStr, PyVal.asFloat,
      Bool.not_true, Bool.or_self, Bool.false_eq_true, if_false]
    rw [if_neg (not_lt.mpr hxy), if_neg (not_lt.mpr hxy),
      if_neg (by push_neg; exact ⟨hx, hy⟩)]

/-- C5 witness for the amended characterization: a valid construction
produced through the iff. -/
theorem c5_witness :
    mkRegion (PyVal.str "tropics") (PyVal.float (-20)) (PyVal.float 20)
      = Except.ok { name := "tropics", min_lat := -20, max_lat := 20, grid := "" } :=
  (c5_mkRegion_ok_iff (PyVal.str "tropics") (PyVal.float (-20)) (PyVal.float 20)
      { name := "tropics", min_lat := -20, max_lat := 20, grid := "" }).mpr
    ⟨"tropics", -20, 20, rfl, rfl, rfl, by norm_num, by
      rw [abs_of_nonpos] <;> norm_num, by rw [abs_of_nonneg] <;> norm_num, rfl⟩

/-- C3 (code bug, evaluated at the failing input): the generation-2
`Region.__post_init__` computes the closed-ring boundary into a local
variable and never assigns `self.grid`, so `Region('equatorial', -5.0,
5.0)` carries the *empty* boundary string, every default region carries
the empty boundary, and a harvested record emitted for such a region
carries the empty `region_bounds` — not the non-empty five-vertex ring
the claim requires. -/
theorem c3_grid_is_empty :
    mkRegion (PyVal.str "equatorial") (PyVal.float (-5)) (PyVal.float 5)
      = Except.ok { name := "equatorial", min_lat := -5, max_lat := 5, grid := "" }
    ∧ DEFAULT_REGIONS.all (fun r => r.grid == "") = true
    ∧ get_data ncfsEq cfgEq
      = (Except.ok (HarvestOutput.tuples
          [ { name := "innov_stats_temperature_bias", cycletime := 6,
              region_name := "equatorial", region_bounds := "",
              elevation := 1000, elevation_units := some "plevs",
              metric := "temperature", stat := "bias", value := 2 } ]), []) := by
  refine ⟨by decide, by decide, ?_⟩
  decide

/-- C6 (code bug, evaluated at the failing input): on a raw
configuration whose `harvester_name` (here `does_not_exist`) is absent
from the registry, `harvest` fails before any handler runs — for
*every* config constructor and extractor the result is the same
`AttributeError` from the `harvester.name` access on `None` — rather
than the registry-lookup KeyError of the unreachable `except` clause. -/
theorem c6_unknown_harvester :
    ∀ (Cfg Data : Type) (ch : RnrRawConfig → Except HarvestErr Cfg)
      (dp : Cfg → Except HarvestErr Data) (display : String),
      harvest [("innov_temperature_netcdf",
          { name := display, config_handler := ch, data_extractor := dp })]
          { harvester_name := some "does_not_exist" }
        = Except.error
            (HarvestErr.attributeError "NoneType object has no attribute name") := by
  intro Cfg Data ch dp display
  rfl

/-- C7: configuration construction fails whenever the `stats` key is
missing, and whenever the supplied list holds an entry outside
`VALID_STATS = [bias, count, rmsd]`; when every entry belongs to the
allow-list the stats phase itself succeeds and stores the list
unchanged (so construction cannot fail on account of it). -/
theorem c7_stats_gate (strftime : ℤ → String → String) (fs : FileSys)
    (now : ℤ) (cfg : ConfigData) :
    (cfg.stats = none →
        ∃ e, mkHarvestConfig strftime fs now cfg = Except.error e) ∧
    (∀ l, cfg.stats = some l →
      ((∃ s ∈ l, s ∉ VALID_STATS) →
          ∃ e, mkHarvestConfig strftime fs now cfg = Except.error e) ∧
      ((∀ s ∈ l, s ∈ VALID_STATS) → set_stats cfg.stats = Except.ok l)) := by
  refine ⟨?_, ?_⟩
  · intro h
    refine ⟨"stats key missing", ?_⟩
    unfold mkHarvestConfig set_stats
    rw [h]
  · intro l hl
    constructor
    · rintro ⟨s, hs, hnot⟩
      have hss : set_stats cfg.stats
          = Except.error "Invalid stat, must be one of VALID_STATS" := by
        unfold set_stats
        rw [hl]
        simp
        exact ⟨s, hs, hnot⟩
      refine ⟨"Invalid stat, must be one of VALID_STATS", ?_⟩
      unfold mkHarvestConfig
      rw [hss]
    · intro hall
      unfold set_stats
      rw [hl]
      simp
      exact hall

/-- C7 witness: the out-of-allow-list entry `wrong` makes construction
fail, while `[bias, count]` passes the stats phase. -/
theorem c7_witness :
    (∃ e, mkHarvestConfig strftimeId fsAll 0 cfgBadStats = Except.error e) ∧
    set_stats cfgGoodStats.stats = Except.ok ["bias", "count"] := by
  constructor
  · exact ((c7_stats_gate strftimeId fsAll 0 cfgBadStats).2 ["bias", "wrong"]
      rfl).1 ⟨"wrong", by decide, by decide⟩
  · exact ((c7_stats_gate strftimeId fsAll 0 cfgGoodStats).2 ["bias", "count"]
      rfl).2 (by decide)

/-- C8: when the raw configuration has no `regions` key, any
successfully constructed configuration carries exactly the five
canonical default regions, in order: equatorial(-5,5), global(-90,90),
north_hemis(20,60), tropics(-20,20), south_hemis(-60,-20). -/
theorem c8_absent_regions_default (strftime : ℤ → String → String)
    (fs : FileSys) (now : ℤ) (cfg : ConfigData) (hc : HvConfig)
    (habs : cfg.regions = none)
    (hok : mkHarvestConfig strftime fs now cfg = Except.ok hc) :
    hc.regions =
      [ { name := "equatorial", min_lat := -5, max_lat := 5, grid := "" },
        { name := "global", min_lat := -90, max_lat := 90, grid := "" },
        { name := "north_hemis", min_lat := 20, max_lat := 60, grid := "" },
        { name := "tropics", min_lat := -20, max_lat := 20, grid := "" },
        { name := "south_hemis", min_lat := -60, max_lat := -20, grid := "" } ] := by
  unfold mkHarvestConfig at hok
  rw [habs] at hok
  simp only [set_regions] at hok
  split at hok
  · exact absurd hok (by simp)
  · split at hok
    · exact absurd hok (by simp)
    · injection hok with h
      rw [← h]
      rfl

/-- C8 witness: a concrete regions-free raw configuration constructs
`hcW8`, whose region list is the default five. -/
theorem c8_witness :
    hcW8.regions =
      [ { name := "equatorial", min_lat := -5, max_lat := 5, grid := "" },
        { name := "global", min_lat := -90, max_lat := 90, grid := "" },
        { name := "north_hemis", min_lat := 20, max_lat := 60, grid := "" },
        { name := "tropics", min_lat := -20, max_lat := 20, grid := "" },
        { name := "south_hemis", min_lat := -60, max_lat := -20, grid := "" } ] :=
  c8_absent_regions_default strftimeId fsAll 0 cfgW8 hcW8 rfl (by decide)

/-- C10: a raw configuration lacking `elevation_unit` still constructs
(the stored unit is `None`, with no default and no validation), and any
subsequent `get_data` over the constructed configuration with a
non-empty metric list fails — either at opening the first file, or,
once a file opens, at the `variables[None]` elevation lookup. -/
theorem c10_elevation_unit_pass_through (strftime : ℤ → String → String)
    (fs : FileSys) (now : ℤ) (cfg : ConfigData) (hc : HvConfig)
    (ncfs : String → Option NcVars)
    (hkey : cfg.elevation_unit = none)
    (hok : mkHarvestConfig strftime fs now cfg = Except.ok hc) :
    hc.elevation_unit = none ∧
    (hc.metrics_meta ≠ [] → ∃ e, (get_data ncfs hc).1 = Except.error e) := by
  have helev : hc.elevation_unit = none := by
    unfold mkHarvestConfig at hok
    split at hok
    · exact absurd hok (by simp)
    · split at hok
      · exact absurd hok (by simp)
      · split at hok
        · exact absurd hok (by simp)
        · injection hok with h
          rw [← h]
          exact hkey
  refine ⟨helev, ?_⟩
  intro hne
  rcases hmm : hc.metrics_meta with _ | ⟨m, rest⟩
  · exact absurd hmm hne
  · cases hop : ncfs m.filename with
    | none =>
        refine ⟨"could not open " ++ m.filename, ?_⟩
        simp [get_data, getDataLoop, hmm, helev, hop]
    | some vars =>
        refine ⟨"problem parsing netcdf file " ++ m.filename
          ++ " - err: " ++ "KeyError: None", ?_⟩
        simp [get_data, getDataLoop, harvestMetric, hmm, helev, hop]

/-- C10 witness: `cfgW10` (no `elevation_unit` key) constructs
`hcW10`, whose stored unit is `None` and whose extraction fails. -/
theorem c10_witness :
    hcW10.elevation_unit = none ∧
    (∃ e, (get_data (fun _ => none) hcW10).1 = Except.error e) := by
  have h := c10_elevation_unit_pass_through strftimeId fsAll 0 cfgW10 hcW10
    (fun _ => none) rfl (by decide)
  exact ⟨h.1, h.2 (by decide)⟩

/-- C4 counterexample: the generation-1 (string-cycle) locator performs
no window check at all — with a strptime oracle resolving the cycle
string `1970010100` to 157776 hours before 1988-01-01, resolution
*succeeds* although the resolved timestamp lies outside
`[1988-01-01, now]`, so the claim's "both schemes" is false. -/
theorem c4_counterexample_gen1_no_window_check :
    mkMetricMeta1 strptime1970 strftimeId fsAll "temperature" fm1970
      = Except.ok
          { name := "temperature",
            filename := "/data/innov_stats.temperature.nc",
            cycletime := -157776 }
    ∧ (-157776 : ℤ) < MIN_CYCLE_DATETIME := by
  constructor
  · decide
  · decide

/-- C4 amended: only the generation-2 (datetime-cycle) locator
validates the window: when the `cycletime` entry is a datetime `ct`, it
fails for every `ct` outside `[MIN_CYCLE_DATETIME, now]`, and every
successful resolution has its cycle time inside the window (and carried
into the result). -/
theorem c4_gen2_window (strftime : ℤ → String → String) (fs : FileSys)
    (now : ℤ) (name : String) (fm : FileMeta) (ct : ℤ)
    (hdt : fm.cycletime = PyVal.dt ct) :
    ((ct < MIN_CYCLE_DATETIME ∨ now < ct) →
        ∃ e, mkMetricMeta strftime fs now name fm = Except.error e) ∧
    (∀ m, mkMetricMeta strftime fs now name fm = Except.ok m →
        MIN_CYCLE_DATETIME ≤ ct ∧ ct ≤ now ∧ m.cycletime = ct) := by
  constructor
  · intro hout
    have hcond : ct > now ∨ ct < MIN_CYCLE_DATETIME := by
      rcases hout with h | h
      · exact Or.inr h
      · exact Or.inl h
    refine ⟨"cycle time is out of range", ?_⟩
    unfold mkMetricMeta
    simp only [hdt]
    rw [if_pos hcond]
  · intro m hok
    unfold mkMetricMeta at hok
    simp only [hdt] at hok
    split_ifs at hok with hcond
    push_neg at hcond
    refine ⟨hcond.2, hcond.1, ?_⟩
    split at hok
    · split at hok
      · exact absurd hok (by simp)
      · injection hok with h
        rw [← h]
    · exact absurd hok (by simp)

/-- C4 witness for the amended statement: a cycletime 200 hours past
the origin fails against `now = 100`, and the in-window `fmW10`
resolves with its cycle time inside the window. -/
theorem c4_witness :
    (∃ e, mkMetricMeta strftimeId fsAll 100 "temperature" fmLate
        = Except.error e) ∧
    (MIN_CYCLE_DATETIME ≤ 0 ∧ (0 : ℤ) ≤ 100 ∧
      MetricMeta.cycletime
        { name := "temperature", filepath := "/data/",
          filename := "/data/innov.temperature.nc", cycletime := 0 } = 0) := by
  constructor
  · exact (c4_gen2_window strftimeId fsAll 100 "temperature" fmLate 200
      rfl).1 (Or.inr (by norm_num))
  · exact (c4_gen2_window strftimeId fsAll 100 "temperature" fmW10 0 rfl).2
      _ (by decide)

/-- Helper: the length of a flatMap whose pieces all have length `c`. -/
theorem length_flatMap_const {α β : Type} (l : List α) (f : α → List β) (c : ℕ)
    (h : ∀ x ∈ l, (f x).length = c) : (l.flatMap f).length = l.length * c := by
  induction l with
  | nil => simp
  | cons a t ih =>
      rw [List.flatMap_cons, List.length_append, h a (List.mem_cons_self a t),
        ih (fun x hx => h x (List.mem_cons_of_mem a hx))]
      simp [Nat.succ_mul, Nat.add_comm]

/-- Helper: `get?` at an in-bounds index yields the `getD` value. -/
theorem get?_eq_some_getD (l : List ℚ) (n : Nat) (h : n < l.length) :
    l.get? n = some (l.getD n 0) := by
  rw [List.getD_eq_getElem?_getD, List.get?_eq_getElem?]
  cases h2 : l[n]? with
  | none =>
      rw [List.getElem?_eq_none_iff] at h2
      omega
  | some a => simp

/-- Helper: when the statistic array fits inside the elevation array,
the innermost loop succeeds and emits one record per index, in index
order. -/
theorem buildItems_ok (m : MetricMeta) (ev : Option String) (elevs : List ℚ)
    (r : Region) (stat : String) (vardata : List ℚ) :
    ∀ (idx : Nat), idx + vardata.length ≤ elevs.length →
      buildItems m ev elevs r stat vardata idx =
        Except.ok ((List.range vardata.length).map (fun i =>
          mkItem m ev r stat (elevs.getD (idx + i) 0) (vardata.getD i 0))) := by
  induction vardata with
  | nil =>
      intro idx _
      simp [buildItems]
  | cons v rest ih =>
      intro idx h
      have hidx : idx < elevs.length := by
        simp only [List.length_cons] at h
        omega
      have hrec := ih (idx + 1) (by simp only [List.length_cons] at h; omega)
      unfold buildItems
      rw [get?_eq_some_getD elevs idx hidx, hrec]
      simp only [List.length_cons, List.range_succ_eq_map, List.map_cons,
        List.map_map]
      have hfun : ((fun i => mkItem m ev r stat (elevs.getD (idx + i) 0)
            ((v :: rest).getD i 0)) ∘ Nat.succ)
          = (fun i => mkItem m ev r stat (elevs.getD (idx + 1 + i) 0)
            (rest.getD i 0)) := by
        funext i
        simp only [Function.comp_apply, List.getD_cons_succ]
        have harith : idx + Nat.succ i = idx + 1 + i := by omega
        rw [harith]
      rw [hfun]
      simp

/-- Helper: the statistic loop for one region, when every requested
variable is present with the elevation array's length. -/
theorem harvestStats_ok (vars : NcVars) (m : MetricMeta) (ev : Option String)
    (elevs : List ℚ) (r : Region) (L : Nat) (hL : elevs.length = L)
    (varOf : String → List ℚ) (stats : List String) :
    (∀ s ∈ stats, lookupVar vars (s ++ "_" ++ r.name) = some (varOf s) ∧
      (varOf s).length = L) →
    harvestStats vars m ev elevs r stats =
      Except.ok (stats.flatMap (fun s =>
        (List.range L).map (fun i =>
          mkItem m ev r s (elevs.getD i 0) ((varOf s).getD i 0)))) := by
  induction stats with
  | nil =>
      intro _
      simp [harvestStats]
  | cons s rest ih =>
      intro h
      have hs := h s (List.mem_cons_self s rest)
      have hrec := ih (fun x hx => h x (List.mem_cons_of_mem s hx))
      have hfit : 0 + (varOf s).length ≤ elevs.length := by
        rw [hs.2, hL]
        omega
      unfold harvestStats
      rw [hs.1]
      simp only [buildItems_ok m ev elevs r s (varOf s) 0 hfit, hrec,
        List.flatMap_cons, hs.2]
      simp

/-- Helper: the region loop, under the same per-variable hypotheses. -/
theorem harvestRegions_ok (vars : NcVars) (m : MetricMeta) (ev : Option String)
    (elevs : List ℚ) (L : Nat) (hL : elevs.length = L)
    (varOf : Region → String → List ℚ) (stats : List String)
    (regions : List Region) :
    (∀ r ∈ regions, ∀ s ∈ stats,
      lookupVar vars (s ++ "_" ++ r.name) = some (varOf r s) ∧
      (varOf r s).length = L) →
    harvestRegions vars m ev elevs stats regions =
      Except.ok (regions.flatMap (fun r => stats.flatMap (fun s =>
        (List.range L).map (fun i =>
          mkItem m ev r s (elevs.getD i 0) ((varOf r s).getD i 0))))) := by
  induction regions with
  | nil =>
      intro _
      simp [harvestRegions]
  | cons r rest ih =>
      intro h
      have hr := h r (List.mem_cons_self r rest)
      have hrec := ih (fun x hx s hs => h x (List.mem_cons_of_mem r hx) s hs)
      unfold harvestRegions
      rw [harvestStats_ok vars m ev elevs r L hL (varOf r) stats hr]
      simp only [hrec, List.flatMap_cons]

/-- Helper: the metric loop, on configurations whose files all resolve
and carry every requested variable at the elevation array's length: it
succeeds, emits the full metric-major cross product, and leaves no file
open. -/
theorem getDataLoop_ok (ncfs : String → Option NcVars) (evn : String)
    (regions : List Region) (stats : List String) (L : Nat)
    (varsOf : MetricMeta → NcVars) (elevOf : MetricMeta → List ℚ)
    (varOf : MetricMeta → Region → String → List ℚ)
    (ms : List MetricMeta) :
    (∀ m ∈ ms, ncfs m.filename = some (varsOf m) ∧
      lookupVar (varsOf m) evn = some (elevOf m) ∧ (elevOf m).length = L ∧
      ∀ r ∈ regions, ∀ s ∈ stats,
        lookupVar (varsOf m) (s ++ "_" ++ r.name) = some (varOf m r s) ∧
        (varOf m r s).length = L) →
    getDataLoop ncfs (some evn) regions stats ms =
      (Except.ok (ms.flatMap (fun m => regions.flatMap (fun r =>
        stats.flatMap (fun s =>
          (List.range L).map (fun i =>
            mkItem m (some evn) r s ((elevOf m).getD i 0)
              ((varOf m r s).getD i 0)))))), []) := by
  induction ms with
  | nil =>
      intro _
      simp [getDataLoop]
  | cons m rest ih =>
      intro h
      have hm := h m (List.mem_cons_self m rest)
      have hrec := ih (fun x hx => h x (List.mem_cons_of_mem m hx))
      have hmetric : harvestMetric (varsOf m) (some evn) regions stats m
          = Except.ok (regions.flatMap (fun r => stats.flatMap (fun s =>
              (List.range L).map (fun i =>
                mkItem m (some evn) r s ((elevOf m).getD i 0)
                  ((varOf m r s).getD i 0))))) := by
        simp only [harvestMetric, hm.2.1]
        exact harvestRegions_ok (varsOf m) m (some evn) (elevOf m) L hm.2.2.1
          (varOf m) stats regions hm.2.2.2
      unfold getDataLoop
      simp only [hm.1, hmetric, hrec, List.flatMap_cons]

/-- C1: over a configuration whose elevation unit is set and whose
files provide, per metric, an elevation array of length `L` and, for
every configured (statistic, region) pair, an array named
`stat ++ "_" ++ region.name` of the same length `L`, `get_data`
(with the flat output format) returns exactly
`|metrics| * |regions| * |stats| * L` records — the flattened cross
product ordered by metric, then region, then statistic (each in
configured order), then ascending level index — each record carrying
that metric's name, that statistic's name, that region's name, and the
elevation value at its level index (alongside the observation time and
region boundary). -/
theorem c1_cross_product (ncfs : String → Option NcVars) (cfg : HvConfig)
    (evn : String) (L : Nat)
    (varsOf : MetricMeta → NcVars) (elevOf : MetricMeta → List ℚ)
    (varOf : MetricMeta → Region → String → List ℚ)
    (hev : cfg.elevation_unit = some evn)
    (hfmt : cfg.output_format = NAMED_TUPLES_LIST)
    (hfile : ∀ m ∈ cfg.metrics_meta, ncfs m.filename = some (varsOf m) ∧
      lookupVar (varsOf m) evn = some (elevOf m) ∧ (elevOf m).length = L ∧
      ∀ r ∈ cfg.regions, ∀ s ∈ cfg.stats,
        lookupVar (varsOf m) (s ++ "_" ++ r.name) = some (varOf m r s) ∧
        (varOf m r s).length = L) :
    get_data ncfs cfg =
      (Except.ok (HarvestOutput.tuples
        (cfg.metrics_meta.flatMap (fun m => cfg.regions.flatMap (fun r =>
          cfg.stats.flatMap (fun s =>
            (List.range L).map (fun i =>
              mkItem m (some evn) r s ((elevOf m).getD i 0)
                ((varOf m r s).getD i 0))))))), []) ∧
    (cfg.metrics_meta.flatMap (fun m => cfg.regions.flatMap (fun r =>
      cfg.stats.flatMap (fun s =>
        (List.range L).map (fun i =>
          mkItem m (some evn) r s ((elevOf m).getD i 0)
            ((varOf m r s).getD i 0)))))).length
      = cfg.metrics_meta.length * cfg.regions.length * cfg.stats.length * L := by
  constructor
  · unfold get_data
    rw [hev, getDataLoop_ok ncfs evn cfg.regions cfg.stats L varsOf elevOf
      varOf cfg.metrics_meta hfile]
    rw [hfmt]
    simp [NAMED_TUPLES_LIST, PANDAS_DATAFRAME]
  · rw [length_flatMap_const _ _ (cfg.regions.length * (cfg.stats.length * L))
      (fun m _ => length_flatMap_const _ _ _
        (fun r _ => length_flatMap_const _ _ _ (fun s _ => by simp)))]
    ring

/-- C1 witness: on the concrete single-metric, single-region,
single-statistic, three-level file, `get_data` returns exactly the
three bias records, in level order, with all handles closed. -/
theorem c1_witness :
    get_data ncfsOk cfgOk =
      (Except.ok (HarvestOutput.tuples
        [ { name := "innov_stats_temperature_bias", cycletime := 6,
            region_name := "global", region_bounds := "",
            elevation := 1000, elevation_units := some "plevs",
            metric := "temperature", stat := "bias", value := 1 },
          { name := "innov_stats_temperature_bias", cycletime := 6,
            region_name := "global", region_bounds := "",
            elevation := 500, elevation_units := some "plevs",
            metric := "temperature", stat := "bias", value := 2 },
          { name := "innov_stats_temperature_bias", cycletime := 6,
            region_name := "global", region_bounds := "",
            elevation := 100, elevation_units := some "plevs",
            metric := "temperature", stat := "bias", value := 3 } ]), []) := by
  have hf : ∀ m ∈ cfgOk.metrics_meta, ncfsOk m.filename = some varsOk ∧
      lookupVar varsOk "plevs" = some [1000, 500, 100] ∧
      ([1000, 500, 100] : List ℚ).length = 3 ∧
      ∀ r ∈ cfgOk.regions, ∀ s ∈ cfgOk.stats,
        lookupVar varsOk (s ++ "_" ++ r.name) = some [1, 2, 3] ∧
        ([1, 2, 3] : List ℚ).length = 3 := by
    intro m hm
    have hm1 : m = mOk := by simpa [cfgOk] using hm
    subst hm1
    refine ⟨rfl, by decide, by decide, ?_⟩
    intro r hr s hs
    have hr1 : r = regionGl := by simpa [cfgOk] using hr
    have hs1 : s = "bias" := by simpa [cfgOk] using hs
    subst hr1
    subst hs1
    exact ⟨by decide, by decide⟩
  have h := (c1_cross_product ncfsOk cfgOk "plevs" 3 (fun _ => varsOk)
    (fun _ => [1000, 500, 100]) (fun _ _ _ => [1, 2, 3]) rfl rfl hf).1
  rw [h]
  decide

/-- Helper: when the metric loop returns a successful result, every
file it opened was closed (the leftover-open list is empty). -/
theorem getDataLoop_ok_implies_closed (ncfs : String → Option NcVars)
    (ev : Option String) (regions : List Region) (stats : List String)
    (ms : List MetricMeta) :
    ∀ (res : List HarvestedData),
      (getDataLoop ncfs ev regions stats ms).1 = Except.ok res →
      (getDataLoop ncfs ev regions stats ms).2 = [] := by
  induction ms with
  | nil =>
      intro res _
      rfl
  | cons m rest ih =>
      intro res h
      unfold getDataLoop at h ⊢
      cases hop : ncfs m.filename with
      | none =>
          simp [hop] at h
      | some vars =>
          simp only [hop] at h ⊢
          cases hm : harvestMetric vars ev regions stats m with
          | error e =>
              simp [hm] at h
          | ok items =>
              simp only [hm] at h ⊢
              cases hrec : getDataLoop ncfs ev regions stats rest with
              | mk fst snd =>
                  simp only [hrec] at h ⊢
                  cases fst with
                  | error e => simp at h
                  | ok more =>
                      have hsnd := ih more (by rw [hrec])
                      rw [hrec] at hsnd
                      simpa using hsnd

/-- Helper: reshaping the flat record list (or propagating an error)
never changes which files are left open: the second component of
`get_data` is that of the metric loop. -/
theorem get_data_snd (ncfs : String → Option NcVars) (cfg : HvConfig) :
    (get_data ncfs cfg).2
      = (getDataLoop ncfs cfg.elevation_unit cfg.regions cfg.stats
          cfg.metrics_meta).2 := by
  unfold get_data
  cases hdl : getDataLoop ncfs cfg.elevation_unit cfg.regions cfg.stats
      cfg.metrics_meta with
  | mk fst snd =>
      cases fst with
      | error e => simp
      | ok items =>
          by_cases hfm : cfg.output_format = PANDAS_DATAFRAME <;> simp [hfm]

/-- C2 counterexample: the claim's guaranteed-close is false — when
reading a variable raises (here `bias_global` is missing from the
opened uvwind file), the `except` clause re-raises the wrapped error
and the `ncfile.close()` after the `try/except` never runs, so the
file is left open as the error propagates. -/
theorem c2_counterexample_file_left_open :
    (get_data ncfsC2 cfgC2).1
      = Except.error
          "problem parsing netcdf file /data/innov.uvwind.nc - err: KeyError: bias_global"
    ∧ (get_data ncfsC2 cfgC2).2 = ["/data/innov.uvwind.nc"] := by
  constructor
  · decide
  · decide

/-- C2 amended: the per-metric file is closed once that metric's
region/statistic loop completes *without error* (a successful
`get_data` leaves no file open); when reading a variable inside the
loop raises, the wrapped error propagates with the file still open
(not closed). -/
theorem c2_close_semantics (ncfs : String → Option NcVars) (cfg : HvConfig) :
    (∀ out, (get_data ncfs cfg).1 = Except.ok out →
      (get_data ncfs cfg).2 = []) ∧
    (∀ m rest vars e, cfg.metrics_meta = m :: rest →
      ncfs m.filename = some vars →
      harvestMetric vars cfg.elevation_unit cfg.regions cfg.stats m
        = Except.error e →
      (get_data ncfs cfg).2 = [m.filename]) := by
  constructor
  · intro out h
    rw [get_data_snd]
    cases hdl : getDataLoop ncfs cfg.elevation_unit cfg.regions cfg.stats
        cfg.metrics_meta with
    | mk fst snd =>
        cases fst with
        | error e =>
            unfold get_data at h
            rw [hdl] at h
            simp at h
        | ok items =>
            have hsnd := getDataLoop_ok_implies_closed ncfs cfg.elevation_unit
              cfg.regions cfg.stats cfg.metrics_meta items (by rw [hdl])
            rw [hdl] at hsnd
            simpa using hsnd
  · intro m rest vars e hms hop hmet
    rw [get_data_snd, hms]
    unfold getDataLoop
    simp [hop, hmet]

/-- C2 witness for the amended statement: the successful concrete run
closes its file, and the concrete failing run leaves its file open. -/
theorem c2_witness :
    (get_data ncfsOk cfgOk).2 = [] ∧
    (get_data ncfsC2 cfgC2).2 = ["/data/innov.uvwind.nc"] := by
  constructor
  · exact (c2_close_semantics ncfsOk cfgOk).1
      (HarvestOutput.tuples
        [ { name := "innov_stats_temperature_bias", cycletime := 6,
            region_name := "global", region_bounds := "",
            elevation := 1000, elevation_units := some "plevs",
            metric := "temperature", stat := "bias", value := 1 },
          { name := "innov_stats_temperature_bias", cycletime := 6,
            region_name := "global", region_bounds := "",
            elevation := 500, elevation_units := some "plevs",
            metric := "temperature", stat := "bias", value := 2 },
          { name := "innov_stats_temperature_bias", cycletime := 6,
            region_name := "global", region_bounds := "",
            elevation := 100, elevation_units := some "plevs",
            metric := "temperature", stat := "bias", value := 3 } ])
      (by decide)
  · exact (c2_close_semantics ncfsC2 cfgC2).2 mC2 [] [("plevs", [100])]
      "KeyError: bias_global" rfl (by decide) (by decide)

end ScoreHv
